import Mathlib

/-!
Verification development for the `geode_bridge` core of the obsidian-geode
repository: the tool-calling orchestration loop (`bridge.py`), the provider
adapters (`ai_client.py`), the plugin registry (`plugins.py`), the built-in
vault tools (`obsidian_api.py`) and the persisted chat history
(`history.py`), shallowly embedded in Lean.

External collaborators (the remote model, the vault HTTP server, the file
system, the Qt signal sinks) are modelled as explicit oracle parameters;
everything the repository itself computes is translated from the source.
-/

set_option maxRecDepth 4000

/-! ## String helpers -/

/-- A single-quote character (U+0027), used by the Python f-strings of the
source (for example `f"{k}='{v}'"` and `f"The file '{p}' was deleted."`). -/
def squo : String := String.singleton (Char.ofNat 39)

/-- The two-character sequence backslash-n.  The source of
`obsidian_api.py` writes `"SUCCESS:\\n"` and splits on `'\\n'` — a literal
backslash followed by `n`, not a newline — so the embedded strings carry
the same two characters. -/
def bslashN : String := "\\" ++ "n"

/-- Boolean string-prefix test, on the underlying character data (models
Python `str.startswith`). -/
def strBegins (s p : String) : Bool := p.data.isPrefixOf s.data

theorem str_data_append (a b : String) : (a ++ b).data = a.data ++ b.data := by
  cases a; cases b; rfl

theorem strBegins_of_front (p a : String) (h : strBegins a p = true) (x : String) :
    strBegins (a ++ x) p = true := by
  unfold strBegins at h ⊢
  rw [str_data_append]
  rw [List.isPrefixOf_iff_prefix] at h ⊢
  exact h.trans (List.prefix_append _ _)

/-- Python `str.rstrip('/')`. -/
def rstripSlash (s : String) : String :=
  ⟨(s.data.reverse.dropWhile (fun c => c = Char.ofNat 47)).reverse⟩

/-! ## Exception model

`exceptions.py` defines the project's exception taxonomy; `NameError`,
`AttributeError` and plain `Exception` come from Python itself.  Python's
`str(e)` is the constructor message, modelled by `PyExc.msg`. -/

inductive PyExc where
  | geminiAuthError (m : String)
  | geminiAPIError (m : String)
  | obsidianConnectionError (m : String)
  | obsidianAuthError (m : String)
  | obsidianAPIError (m : String) (status : Option Nat)
  | obsidianError (m : String)
  | nameError (m : String)
  | attributeError (m : String)
  | generic (m : String)
  deriving DecidableEq

/-- Python `str(e)` for every exception of the model. -/
def PyExc.msg : PyExc → String
  | .geminiAuthError m => m
  | .geminiAPIError m => m
  | .obsidianConnectionError m => m
  | .obsidianAuthError m => m
  | .obsidianAPIError m _ => m
  | .obsidianError m => m
  | .nameError m => m
  | .attributeError m => m
  | .generic m => m

/-- `isinstance(e, ObsidianError)`: the four classes of `exceptions.py`
rooted at `ObsidianError`. -/
def PyExc.isObsidianError : PyExc → Bool
  | .obsidianConnectionError _ => true
  | .obsidianAuthError _ => true
  | .obsidianAPIError _ _ => true
  | .obsidianError _ => true
  | _ => false

/-- `GeodeBridge._format_error_message` (bridge.py lines 319-334). -/
def formatErrorMessage : PyExc → String
  | .geminiAuthError _ => "Authentication Error: Please check your API keys in settings."
  | .obsidianAuthError _ => "Authentication Error: Please check your API keys in settings."
  | .obsidianConnectionError _ =>
      "Obsidian Connection Error: Is Obsidian running with the Local REST API plugin?"
  | e => "An unexpected error occurred: " ++ e.msg

/-- The message of Python's `NameError` raised at bridge.py line 293, where
`types.FunctionResponse` is evaluated although `bridge.py` never imports
`types`. -/
def nameErrorTypesMsg : String := "name " ++ squo ++ "types" ++ squo ++ " is not defined"

/-! ## Qt signal model

`send_message` receives a `signals` object and notifies the UI through
`signals.message`, `signals.tool_call`, `signals.error` and
`signals.finished`.  Emission may itself raise (a slot is arbitrary UI
code); `Signals.fails` records which emissions raise.  Traces record
every attempted emission in order. -/

inductive Event where
  | toolCall (desc : String)
  | errorEv (msg : String)
  | message (sender text : String)
  | finished
  deriving DecidableEq

structure Signals where
  fails : Event → Bool

/-- A `Signals` sink whose emissions never raise. -/
def sigOk : Signals := ⟨fun _ => false⟩

/-- The exception value standing for a raising `signal.emit`. -/
def emitExc : PyExc := .generic "signal emission failed"

/-! ## Provider response model

The shapes `GeodeBridge._extract_function_calls` and
`GeodeBridge._extract_final_text` probe with `hasattr`: a response owns an
optional candidate list, a candidate an optional content, a content an
optional part list, and a part an optional function call and an optional
text.  `none` models both a missing attribute and a falsy (`None`/empty)
value wherever the code tests truthiness; for `Content.parts`, which the
code dereferences without any guard, `none` models the shape whose access
raises. -/

structure FunctionCall where
  name : String
  args : List (String × String)
  deriving DecidableEq

structure RPart where
  function_call : Option FunctionCall
  text : Option String
  deriving DecidableEq

structure Content where
  parts : Option (List RPart)
  deriving DecidableEq

structure Candidate where
  content : Option Content
  deriving DecidableEq

structure Response where
  candidates : Option (List Candidate)
  deriving DecidableEq

/-- The message of the `AttributeError` raised when
`candidate.content.parts` is accessed on a content without parts. -/
def attrErrPartsMsg : String :=
  "content object has no attribute " ++ squo ++ "parts" ++ squo

/-- `GeodeBridge._extract_function_calls` (bridge.py lines 234-257).
The guards `hasattr(response, 'candidates') and response.candidates` and
`hasattr(candidate, 'content') and candidate.content` return `[]` early,
but the subsequent `for part in candidate.content.parts` dereferences
`parts` with no guard, so a content without parts raises. -/
def extractFunctionCalls (r : Response) : Except PyExc (List FunctionCall) :=
  match r.candidates with
  | none => .ok []
  | some [] => .ok []
  | some (c :: _) =>
    match c.content with
    | none => .ok []
    | some ct =>
      match ct.parts with
      | none => .error (.attributeError attrErrPartsMsg)
      | some parts => .ok (parts.filterMap (·.function_call))

/-- `GeodeBridge._extract_final_text` (bridge.py lines 298-317): same
defensive structure, concatenating the truthy `text` fields of the first
candidate's parts. -/
def extractFinalText (r : Response) : Except PyExc String :=
  match r.candidates with
  | none => .ok ""
  | some [] => .ok ""
  | some (c :: _) =>
    match c.content with
    | none => .ok ""
    | some ct =>
      match ct.parts with
      | none => .error (.attributeError attrErrPartsMsg)
      | some parts =>
        .ok (parts.foldl (fun acc p =>
          match p.text with
          | some t => if t = "" then acc else acc ++ t
          | none => acc) "")

/-- The response shapes on which the unguarded `candidate.content.parts`
access of the two extraction helpers cannot raise. -/
def partsSafe (r : Response) : Bool :=
  match r.candidates with
  | none => true
  | some [] => true
  | some (c :: _) =>
    match c.content with
    | none => true
    | some ct => ct.parts.isSome

/-- Whether an `Except` result is a normal return. -/
def exceptOk {ε α : Type} : Except ε α → Bool
  | .ok _ => true
  | .error _ => false

/-! ## Tool values and the tool dispatch map

A tool callable returns an arbitrary Python value; `_execute_function_call`
stringifies anything that is not already a recognised primitive/container
(bridge.py lines 288-290).  `PyVal.obj` stands for any non-serializable
object together with its `str()` rendering. -/

inductive PyVal where
  | str (s : String)
  | int (n : Int)
  | boolean (b : Bool)
  | pynone
  | obj (objStr : String)
  deriving DecidableEq

/-- `if not isinstance(tool_response, (str, dict, int, float, list, bool,
type(None))): tool_response = str(tool_response)` (bridge.py 289-290). -/
def coerceSerializable : PyVal → PyVal
  | .obj s => .str s
  | v => v

/-- A registered tool callable: `name` is the Python `__name__` used as the
dispatch key, `run` its behaviour (it may raise), and `id` a tag
distinguishing distinct function objects. -/
structure ToolFn where
  name : String
  run : List (String × String) → Except PyExc PyVal
  id : Nat

/-- One insertion of a Python `dict` display/comprehension: an existing key
is overwritten in place, a new key is appended. -/
def dictInsert : List (String × ToolFn) → String → ToolFn → List (String × ToolFn)
  | [], k, v => [(k, v)]
  | kv :: rest, k, v => if kv.1 = k then (k, v) :: rest else kv :: dictInsert rest k v

/-- Python `dict.get` on the association-list model. -/
def dictFind (m : List (String × ToolFn)) (k : String) : Option ToolFn :=
  (m.find? (fun kv => kv.1 = k)).map (·.2)

/-- `GeodeBridge.__init__` line 58:
`self.tool_function_map = {func.__name__: func for func in self.tool_functions}`.
A dict comprehension inserts in list order, so a repeated `__name__` is
silently overwritten by the later function. -/
def buildToolFunctionMap (funcs : List ToolFn) : List (String × ToolFn) :=
  funcs.foldl (fun m f => dictInsert m f.name f) []

/-- The function that a given name ends up bound to: the last element of
`funcs` carrying that name, if any. -/
def lastWithName (funcs : List ToolFn) (n : String) : Option ToolFn :=
  funcs.foldl (fun acc f => if f.name = n then some f else acc) none

/-! ## Plugin registration (`plugins.py`) -/

/-- A validated plugin instance: its `get_name()` and `get_tools()` results
(modelled as already-computed data; the source also guards these calls with
a `try`, which only matters for plugins whose accessors themselves raise). -/
structure Plugin where
  name : String
  tools : List ToolFn

/-- The mutable state of `PluginManager`: the `plugins` dict (name to
instance, in insertion order) and the flat `tools` list. -/
structure PMState where
  plugins : List (String × Plugin)
  tools : List ToolFn

/-- `PluginManager._register_plugin` (plugins.py lines 220-253): a plugin
whose name is already a key of `self.plugins` is skipped (logged, return
`""`); otherwise it is stored and its tools are appended. -/
def registerPlugin (st : PMState) (p : Plugin) : PMState × String :=
  if (st.plugins.map (·.1)).contains p.name then
    (st, "")
  else
    ({ plugins := st.plugins ++ [(p.name, p)], tools := st.tools ++ p.tools }, p.name)

/-! ## The orchestrator (`bridge.py`)

`_execute_function_call`, `_process_tool_calls` and `send_message` are
embedded with the `signals` sink, the tool map and the two `ai_client`
calls (`send_message(prompt)` and `send_message(function_responses)`) as
parameters.  Python exceptions travel in the `Except` channel. -/

/-- The value `types.FunctionResponse(name=..., response=...)` would have
been, had `bridge.py` imported `types`. -/
structure FunctionResponse where
  name : String
  response : PyVal
  deriving DecidableEq

/-- The `", ".join(f"{k}='{v}'" for ...)` rendering of the call arguments
(bridge.py line 277). -/
def argsStr (args : List (String × String)) : String :=
  String.intercalate ", " (args.map (fun kv => kv.1 ++ "=" ++ squo ++ kv.2 ++ squo))

/-- `GeodeBridge._execute_function_call` (bridge.py lines 259-296).

Steps, in source order: read the name and arguments, emit the
`tool_call` notification (which may itself raise), look the name up in
`tool_function_map` (an unknown name raises
`Exception("Unknown tool function requested: ...")`), run the callable
(which may raise), coerce the result to a serializable value — and then
evaluate `types.FunctionResponse(...)`.  `bridge.py` never imports
`types`, so this last statement raises
`NameError: name 'types' is not defined` on every path that reaches it;
the function can never return normally. -/
def executeFunctionCall (toolMap : List (String × ToolFn)) (sig : Signals)
    (fc : FunctionCall) : List Event × Except PyExc FunctionResponse :=
  let args := if fc.args.isEmpty then [] else fc.args
  let ev := Event.toolCall (fc.name ++ "(" ++ argsStr args ++ ")")
  if sig.fails ev then
    ([ev], .error emitExc)
  else
    match dictFind toolMap fc.name with
    | none => ([ev], .error (.generic ("Unknown tool function requested: " ++ fc.name)))
    | some f =>
      match f.run args with
      | .error e => ([ev], .error e)
      | .ok v =>
        let _tool_response := coerceSerializable v
        ([ev], .error (.nameError nameErrorTypesMsg))

/-- The `for function_call in function_calls` collection loop of
`_process_tool_calls` (bridge.py lines 209-217): execute in provider
order, stop at the first raising call. -/
def execCalls (execute : FunctionCall → List Event × Except PyExc FunctionResponse) :
    List FunctionCall → List Event × Except PyExc (List FunctionResponse)
  | [] => ([], .ok [])
  | fc :: rest =>
    match execute fc with
    | (evs, .error e) => (evs, .error e)
    | (evs, .ok fr) =>
      match execCalls execute rest with
      | (evs2, .error e) => (evs ++ evs2, .error e)
      | (evs2, .ok frs) => (evs ++ evs2, .ok (fr :: frs))

/-- `max_iterations = 10` (bridge.py line 200). -/
def maxIterations : Nat := 10

/-- The iteration-ceiling error message (bridge.py line 231). -/
def toolLoopExceededMsg : String := "Tool-use loop exceeded maximum iterations"

/-- Outcome of `_process_tool_calls`: the attempted signal emissions in
order, the number of `ai_client.send_message(function_responses)`
resubmission calls made, and either a normal return (carrying the final
value of the loop-local `response` variable, which the Python function
drops — it returns `None`) or an exception escaping the method. -/
structure LoopOut where
  events : List Event
  sends : Nat
  result : Except PyExc Response

/-- The body of `for iteration in range(max_iterations)` in
`GeodeBridge._process_tool_calls` (bridge.py lines 200-232), with `fuel`
the number of remaining loop indices and `iteration` the current index:

* extract the function calls (an `AttributeError` from the unguarded
  `parts` access propagates out of the method);
* no calls: `break`;
* execute all calls in order; a raising execution emits
  `"Tool execution failed: ..."` and returns (zero results resubmitted);
* resubmit the collected results in one `ai_client.send_message` call; a
  raising send emits `"Error sending function responses: ..."` and returns;
* on the last index, emit the iteration-ceiling error and `break`.

An `error.emit` that itself raises propagates out of the method. -/
def processToolCallsAux (sig : Signals)
    (execute : FunctionCall → List Event × Except PyExc FunctionResponse)
    (send : List FunctionResponse → Except PyExc Response) :
    Nat → Nat → Response → LoopOut
  | 0, _, response => ⟨[], 0, .ok response⟩
  | fuel + 1, iteration, response =>
    match extractFunctionCalls response with
    | .error e => ⟨[], 0, .error e⟩
    | .ok [] => ⟨[], 0, .ok response⟩
    | .ok (fc :: rest) =>
      match execCalls execute (fc :: rest) with
      | (evs1, .error e) =>
        let ev := Event.errorEv ("Tool execution failed: " ++ e.msg)
        ⟨evs1 ++ [ev], 0, if sig.fails ev then .error emitExc else .ok response⟩
      | (evs1, .ok frs) =>
        match frs with
        | [] =>
          -- `if function_responses:` — an empty collection skips the send
          -- (unreachable here since the call list is non-empty)
          if iteration = maxIterations - 1 then
            let ev := Event.errorEv toolLoopExceededMsg
            ⟨evs1 ++ [ev], 0, if sig.fails ev then .error emitExc else .ok response⟩
          else
            let out := processToolCallsAux sig execute send fuel (iteration + 1) response
            ⟨evs1 ++ out.events, out.sends, out.result⟩
        | _ :: _ =>
          match send frs with
          | .error e =>
            let ev := Event.errorEv ("Error sending function responses: " ++ e.msg)
            ⟨evs1 ++ [ev], 1, if sig.fails ev then .error emitExc else .ok response⟩
          | .ok newResponse =>
            if iteration = maxIterations - 1 then
              let ev := Event.errorEv toolLoopExceededMsg
              ⟨evs1 ++ [ev], 1, if sig.fails ev then .error emitExc else .ok newResponse⟩
            else
              let out := processToolCallsAux sig execute send fuel (iteration + 1) newResponse
              ⟨evs1 ++ out.events, 1 + out.sends, out.result⟩

/-- `GeodeBridge._process_tool_calls` (bridge.py lines 192-232). -/
def processToolCalls (sig : Signals)
    (execute : FunctionCall → List Event × Except PyExc FunctionResponse)
    (send : List FunctionResponse → Except PyExc Response)
    (response : Response) : LoopOut :=
  processToolCallsAux sig execute send maxIterations 0 response

/-- Outcome of `send_message`: the attempted signal emissions in order and
the exception propagated to the caller, if any. -/
structure RunOut where
  events : List Event
  escaped : Option PyExc

/-- The `except Exception` handler of `send_message` (bridge.py lines
182-185): format the error and emit it; if this `error.emit` itself
raises, that new exception escapes `send_message`. -/
def emitHandler (sig : Signals) (e : PyExc) : List Event × Option PyExc :=
  let ev := Event.errorEv (formatErrorMessage e)
  ([ev], if sig.fails ev then some emitExc else none)

/-- `GeodeBridge.send_message` (bridge.py lines 157-190), with the two
`ai_client` calls and the tool executor as parameters:

* send the prompt;
* run `_process_tool_calls` on the response;
* extract the final text **from the same `response` local that received
  the initial reply** — the loop only rebinds its own local, so line 179
  always reads the first response — and emit the message event (an empty
  text becomes `"(No text response)"` through `final_text or ...`);
* any exception on this path is formatted and emitted as an error event
  (the `except Exception` handler).

`sendMessageBody` is the `try`/`except` part; `sendMessage` below adds the
`finally` block. -/
def sendMessageBody (sig : Signals)
    (sendPrompt : String → Except PyExc Response)
    (execute : FunctionCall → List Event × Except PyExc FunctionResponse)
    (send : List FunctionResponse → Except PyExc Response)
    (prompt : String) : List Event × Option PyExc :=
  match sendPrompt prompt with
  | .error e => emitHandler sig e
  | .ok response =>
    let out := processToolCalls sig execute send response
    match out.result with
    | .error e =>
      let h := emitHandler sig e
      (out.events ++ h.1, h.2)
    | .ok _ =>
      match extractFinalText response with
      | .error e =>
        let h := emitHandler sig e
        (out.events ++ h.1, h.2)
      | .ok t =>
        let txt := if t = "" then "(No text response)" else t
        let ev := Event.message "Geode" txt
        if sig.fails ev then
          let h := emitHandler sig emitExc
          (out.events ++ [ev] ++ h.1, h.2)
        else
          (out.events ++ [ev], none)

/-- `GeodeBridge.send_message` (bridge.py lines 157-190): the `try` body
and `except` handler of `sendMessageBody`, then the `finally` block,
which always attempts exactly one `finished` emission and swallows an
exception raised by that emission (lines 186-190); an exception that
escaped the `except` handler still propagates afterwards. -/
def sendMessage (sig : Signals)
    (sendPrompt : String → Except PyExc Response)
    (execute : FunctionCall → List Event × Except PyExc FunctionResponse)
    (send : List FunctionResponse → Except PyExc Response)
    (prompt : String) : RunOut :=
  ⟨(sendMessageBody sig sendPrompt execute send prompt).1 ++ [Event.finished],
   (sendMessageBody sig sendPrompt execute send prompt).2⟩

/-- `send_message` composed with the concrete `_execute_function_call`
over the bridge's `tool_function_map`. -/
def bridgeSendMessage (toolMap : List (String × ToolFn)) (sig : Signals)
    (sendPrompt : String → Except PyExc Response)
    (send : List FunctionResponse → Except PyExc Response)
    (prompt : String) : RunOut :=
  sendMessage sig sendPrompt (executeFunctionCall toolMap sig) send prompt

/-! ## Built-in vault tools (`obsidian_api.py`)

`ObsidianAPI._make_request` maps transport failures onto the typed
exception taxonomy; its network behaviour is an oracle
(`ApiOracle`).  The five `ObsidianTools` methods are translated
literally over that oracle. -/

inductive HttpMethod where
  | get
  | put
  | delete
  deriving DecidableEq

/-- A successful HTTP response: `jsonData` models `response.json()`
(which may raise, and yields the `subfolders`/`files` fields that
`list_files` reads, defaulting each to `[]`); `text` models
`response.text`. -/
structure HttpResp where
  jsonData : Except PyExc (List String × List String)
  text : String

/-- The outcome of `ObsidianAPI._make_request` for a method, an endpoint
and an optional body: either a response or one of the typed exceptions of
`exceptions.py`. -/
def ApiOracle : Type := HttpMethod → String → Option String → Except PyExc HttpResp

/-- Upper-case hexadecimal digit. -/
def hexDigitChar (n : Nat) : Char :=
  if n < 10 then Char.ofNat (48 + n) else Char.ofNat (55 + n)

/-- Characters `urllib.parse.quote` leaves unescaped with the default
`safe='/'`: letters, digits, `_`, `.`, `-`, `~` and `/`. -/
def quoteSafeChar (c : Char) : Bool :=
  c.isAlphanum || c = Char.ofNat 95 || c = Char.ofNat 46 || c = Char.ofNat 45 ||
    c = Char.ofNat 126 || c = Char.ofNat 47

/-- `%HH` escape of one byte. -/
def percentByte (b : UInt8) : String :=
  String.mk [Char.ofNat 37, hexDigitChar (b.toNat / 16), hexDigitChar (b.toNat % 16)]

/-- `urllib.parse.quote` with its default `safe='/'`. -/
def urlQuote (s : String) : String :=
  s.data.foldl (fun acc c =>
    if quoteSafeChar c then acc.push c
    else acc ++ String.join (((String.singleton c).toUTF8.toList).map percentByte)) ""

/-- Python `sorted` on strings (ascending lexicographic). -/
def insertStrLe (x : String) : List String → List String
  | [] => [x]
  | y :: ys => if decide (x ≤ y) then x :: y :: ys else y :: insertStrLe x ys

def sortStr (l : List String) : List String := l.foldr insertStrLe []

/-- The catch-all tool reply of the `except Exception` branches. -/
def errUnexpected : String := "ERROR: An unexpected error occurred. Check logs."

/-- `ObsidianTools.list_files` (obsidian_api.py lines 143-174). -/
def listFiles (api : ApiOracle) (directory : String) : String :=
  match api .get ("/vault/" ++ urlQuote directory) none with
  | .ok resp =>
    match resp.jsonData with
    | .error _ => errUnexpected
    | .ok (subfolders, files) =>
      let folders := subfolders.map (fun name => name ++ "/")
      let allItems := sortStr (folders ++ files)
      if allItems.isEmpty then
        "SUCCESS: The directory " ++ squo ++ directory ++ squo ++ " is empty."
      else
        "SUCCESS:" ++ bslashN ++ String.intercalate bslashN allItems
  | .error e =>
    if e.isObsidianError then
      "ERROR: Could not list files in " ++ squo ++ directory ++ squo ++ ". Reason: " ++ e.msg
    else errUnexpected

/-- `ObsidianTools.read_file` (obsidian_api.py lines 225-249). -/
def readFile (api : ApiOracle) (filePath : String) : String :=
  match api .get ("/vault/" ++ urlQuote filePath) none with
  | .ok resp => resp.text
  | .error e =>
    match e with
    | .obsidianAPIError m status =>
      if status = some 404 then
        "ERROR: The file " ++ squo ++ filePath ++ squo ++ " was not found in the vault."
      else
        "ERROR: Could not read file. Reason: " ++ m
    | _ => errUnexpected

/-- `ObsidianTools.create_or_update_file` (obsidian_api.py lines 251-280). -/
def createOrUpdateFile (api : ApiOracle) (filePath content : String) : String :=
  match api .put ("/vault/" ++ urlQuote filePath) (some content) with
  | .ok _ =>
    "SUCCESS: The file " ++ squo ++ filePath ++ squo ++ " was saved successfully."
  | .error e =>
    if e.isObsidianError then
      "ERROR: Could not write to file. Reason: " ++ e.msg
    else errUnexpected

/-- `ObsidianTools.delete_file` (obsidian_api.py lines 282-310).  The
non-404 `ObsidianAPIError` branch returns a string beginning
`"API Error:"`, unlike every other error branch of the vault tools. -/
def deleteFile (api : ApiOracle) (filePath : String) : String :=
  match api .delete ("/vault/" ++ urlQuote filePath) none with
  | .ok _ => "SUCCESS: The file " ++ squo ++ filePath ++ squo ++ " was deleted."
  | .error e =>
    match e with
    | .obsidianAPIError m status =>
      if status = some 404 then
        "ERROR: Could not delete the file " ++ squo ++ filePath ++ squo ++
          " because it was not found."
      else
        "API Error: Could not delete file. Reason: " ++ m
    | _ => errUnexpected

/-- The item loop inside `fetch_directory` (obsidian_api.py lines
196-210): skip empty items, reconstruct the full path, record it, and
recurse into entries ending in `/`. -/
def processLines (recurse : String → List String) (path : String) :
    List String → List String
  | [] => []
  | item :: rest =>
    if item = "" then processLines recurse path rest
    else
      let fullPath := if path = "." then item else rstripSlash path ++ "/" ++ item
      (fullPath :: (if item.endsWith "/" then recurse fullPath else []))
        ++ processLines recurse path rest

/-- `fetch_directory` inside `ObsidianTools.list_all_files`
(obsidian_api.py lines 185-213).  `fuel` bounds the recursion depth,
standing for the Python call stack; at depth zero the inner
`except Exception` (which would catch a `RecursionError`) contributes
nothing, exactly as a caught exception does. -/
def fetchDirectory (api : ApiOracle) : Nat → String → List String
  | 0, _ => []
  | fuel + 1, path =>
    let responseStr := listFiles api path
    if strBegins responseStr "ERROR" then []
    else
      processLines (fun p => fetchDirectory api fuel p) path
        (((responseStr.replace ("SUCCESS:" ++ bslashN) "").trim).splitOn bslashN)

/-- `ObsidianTools.list_all_files` (obsidian_api.py lines 176-223). -/
def listAllFiles (api : ApiOracle) (fuel : Nat) : String :=
  let allPaths := fetchDirectory api fuel "."
  if allPaths.isEmpty then
    "ERROR: No files or folders found in the vault, or the vault root could not be read."
  else
    "SUCCESS:" ++ bslashN ++ String.intercalate bslashN (sortStr allPaths.dedup)

/-! ## Provider adapters (`ai_client.py`)

The vendor SDKs are external; `ProviderEnv` records whether the library
imports, whether constructing the client with the configured credential
succeeds, whether (for Gemini) `client.chats.create` succeeds, and the
`str(e)` text of the underlying failure. -/

structure ProviderEnv where
  libAvailable : Bool
  clientOk : Bool
  chatCreateOk : Bool
  errText : String

/-- The attribute state of a `GeminiClient` after `initialize`. -/
structure GeminiState where
  client : Bool
  chat : Option Unit
  deriving DecidableEq

/-- `GeminiClient.create_chat_session` (ai_client.py lines 77-91). -/
def geminiCreateChatSession (env : ProviderEnv) (modelName : String)
    (st : GeminiState) : Except PyExc GeminiState :=
  if env.chatCreateOk then .ok { st with chat := some () }
  else
    .error (.geminiAPIError ("Failed to create Gemini chat session " ++ squo ++ modelName ++
      squo ++ ": " ++ env.errText))

/-- `GeminiClient.initialize` (ai_client.py lines 44-57): import the
library, construct the client, then immediately `create_chat_session`;
any exception on the way is re-raised as
`GeminiAuthError("Failed to create Gemini client: ...")`. -/
def geminiInit (env : ProviderEnv) (modelName : String) : Except PyExc GeminiState :=
  if env.libAvailable = false then
    .error (.geminiAuthError ("Failed to create Gemini client: " ++ env.errText))
  else if env.clientOk = false then
    .error (.geminiAuthError ("Failed to create Gemini client: " ++ env.errText))
  else
    match geminiCreateChatSession env modelName { client := true, chat := none } with
    | .ok st => .ok st
    | .error e => .error (.geminiAuthError ("Failed to create Gemini client: " ++ e.msg))

/-- `GeminiClient.send_message` (ai_client.py lines 93-95):
`self.chat.send_message(prompt)`. With `self.chat` still `None` this
raises an `AttributeError`; otherwise the remote call is the oracle. -/
def geminiSendMessage (st : GeminiState) (net : String → Except PyExc Response)
    (prompt : String) : Except PyExc Response :=
  match st.chat with
  | none => .error (.attributeError
      (squo ++ "NoneType" ++ squo ++ " object has no attribute " ++ squo ++
        "send_message" ++ squo))
  | some _ => net prompt

/-- The attribute state of a `ClaudeClient`: `initialize` assigns
`self.client` and `self.tool_functions`; only `create_chat_session`
assigns `self.messages`. -/
structure ClaudeState where
  client : Bool
  tool_functions : Option (List String)
  messages : Option (List (String × String))
  deriving DecidableEq

/-- `ClaudeClient.initialize` (ai_client.py lines 101-114): import
`anthropic`, construct the client, store the tool list — and return.
Unlike `GeminiClient.initialize`, it never calls `create_chat_session`,
so `self.messages` is left unassigned. -/
def claudeInit (env : ProviderEnv) (tools : List String) : Except PyExc ClaudeState :=
  if env.libAvailable = false then
    .error (.geminiAuthError "Anthropic package not installed. Install with: pip install anthropic")
  else if env.clientOk = false then
    .error (.geminiAuthError ("Failed to create Claude client: " ++ env.errText))
  else
    .ok { client := true, tool_functions := some tools, messages := none }

/-- `ClaudeClient.create_chat_session` (ai_client.py lines 134-138). -/
def claudeCreateChatSession (st : ClaudeState) (tools : List String) : ClaudeState :=
  { st with tool_functions := some tools, messages := some [] }

/-- The message of the `AttributeError` raised by
`self.messages.append(...)` when `self.messages` was never assigned. -/
def claudeNoMessagesMsg : String :=
  squo ++ "ClaudeClient" ++ squo ++ " object has no attribute " ++ squo ++ "messages" ++ squo

/-- `ClaudeClient.send_message` (ai_client.py lines 140-167): append the
user turn to `self.messages` (an `AttributeError` if the attribute was
never created), call the API with the whole accumulated list (the oracle
`net`; the placeholder tool schemas are folded into it), and append the
assistant turn when the response has content. -/
def claudeSendMessage (st : ClaudeState) (net : List (String × String) → Except PyExc String)
    (prompt : String) : Except PyExc (ClaudeState × String) :=
  match st.messages with
  | none => .error (.attributeError claudeNoMessagesMsg)
  | some msgs =>
    let msgs2 := msgs ++ [("user", prompt)]
    match net msgs2 with
    | .error e => .error e
    | .ok text =>
      let msgs3 := if text = "" then msgs2 else msgs2 ++ [("assistant", text)]
      .ok ({ st with messages := some msgs3 }, text)

/-! ## Persisted chat history (`history.py`)

The JSON file content is modelled by `JVal`; a file that is not valid
JSON is carried as `parsed = none`.  The file system (existence, size,
rename success, `time.time()`) is the oracle `LoadEnv`/`VFile`. -/

inductive JVal where
  | obj (fields : List (String × JVal))
  | arr (elems : List JVal)
  | str (s : String)
  | num (n : Int)
  | boolean (b : Bool)
  | null

/-- Python `dict` lookup on a JSON object. -/
def jLookup (fields : List (String × JVal)) (k : String) : Option JVal :=
  (fields.find? (fun kv => kv.1 = k)).map (·.2)

/-- `ChatMessage` dataclass (history.py lines 18-23). -/
structure ChatMessage where
  timestamp : String
  sender : String
  content : String
  message_type : String
  deriving DecidableEq

/-- `ChatSession` dataclass (history.py lines 25-33). -/
structure ChatSession where
  session_id : String
  title : String
  created_at : String
  updated_at : String
  messages : List ChatMessage
  deriving DecidableEq

/-- `ChatMessage.from_dict`, i.e. `cls(**data)`: every key must name a
dataclass field, `timestamp`/`sender`/`content` are required and
`message_type` defaults to `"text"`; anything else raises a `TypeError`.
(Field values are taken to be strings, as `to_dict` writes them.) -/
def chatMessageFromDict (j : JVal) : Except PyExc ChatMessage :=
  match j with
  | .obj fields =>
    if fields.all (fun kv =>
        ["timestamp", "sender", "content", "message_type"].contains kv.1) then
      match jLookup fields "timestamp", jLookup fields "sender", jLookup fields "content" with
      | some (.str ts), some (.str sd), some (.str ct) =>
        match jLookup fields "message_type" with
        | none => .ok ⟨ts, sd, ct, "text"⟩
        | some (.str mt) => .ok ⟨ts, sd, ct, mt⟩
        | some _ => .error (.generic "TypeError: message_type")
      | _, _, _ => .error (.generic "TypeError: missing required argument")
    else .error (.generic "TypeError: unexpected keyword argument")
  | _ => .error (.generic "TypeError: argument mapping expected")

/-- `ChatSession.from_dict` (history.py lines 30-33): build the message
list from `data.get('messages', [])`, then read the four required keys
(a missing key raises `KeyError`). -/
def chatSessionFromDict (j : JVal) : Except PyExc ChatSession :=
  match j with
  | .obj fields =>
    let msgJs := match jLookup fields "messages" with
      | some (.arr l) => l
      | _ => []
    match msgJs.mapM chatMessageFromDict with
    | .error e => .error e
    | .ok msgs =>
      match jLookup fields "session_id", jLookup fields "title",
            jLookup fields "created_at", jLookup fields "updated_at" with
      | some (.str sid), some (.str ti), some (.str ca), some (.str ua) =>
        .ok ⟨sid, ti, ca, ua, msgs⟩
      | _, _, _, _ => .error (.generic "KeyError")
  | _ => .error (.generic "TypeError: session mapping expected")

/-- Python dict assignment `self.sessions[session.session_id] = session`. -/
def sessUpsert (sessions : List (String × ChatSession)) (s : ChatSession) :
    List (String × ChatSession) :=
  if (sessions.map (·.1)).contains s.session_id then
    sessions.map (fun kv => if kv.1 = s.session_id then (kv.1, s) else kv)
  else sessions ++ [(s.session_id, s)]

/-- The `data['sessions']` list, when `data` is an object carrying a
`sessions` key bound to a list; every other shape takes the
"invalid format, starting fresh" branch. -/
def jSessions (j : JVal) : Option (List JVal) :=
  match j with
  | .obj fields =>
    match jLookup fields "sessions" with
    | some (.arr l) => some l
    | _ => none
  | _ => none

/-- `PurePath.with_suffix`: drop the last dot-suffix (if any) and append
the new suffix. -/
def dropLastExt (p : String) : String :=
  let parts := p.splitOn "."
  if parts.length ≤ 1 then p else String.intercalate "." parts.dropLast

def withSuffix (p suffix : String) : String := dropLastExt p ++ suffix

/-- File-system oracle for one `load_history` run: whether the rename of
a corrupted file succeeds, and the current `int(time.time())`. -/
structure LoadEnv where
  renameOk : Bool
  now : Nat

/-- The history file as found on disk: missing, or present with a byte
size and (when it is valid JSON) its parsed content. -/
inductive VFile where
  | missing
  | file (size : Nat) (parsed : Option JVal)

/-- Outcome of `load_history`: the in-memory session dict, the path the
corrupted file was renamed to (if that happened), and the exception
escaping the method, if any. -/
structure LoadOut where
  sessions : List (String × ChatSession)
  renamedTo : Option String
  raised : Option PyExc

/-- `ChatHistoryManager.load_history` (history.py lines 69-101):

* a missing or empty file: keep the current sessions and return;
* a non-empty file that fails to parse (`json.JSONDecodeError`): rename
  it to `<stem>.corrupted.<int(time.time())>.json` (an `OSError` from the
  rename is caught and logged) and set the session dict to `{}`;
* parsed data without a `sessions` list: set the session dict to `{}`;
* otherwise insert each parsed session; any exception from the loop is
  caught by the `except Exception` branch, which sets the dict to `{}`.

No path re-raises. -/
def loadHistory (env : LoadEnv) (historyFile : String) (f : VFile)
    (sessions0 : List (String × ChatSession)) : LoadOut :=
  match f with
  | .missing => ⟨sessions0, none, none⟩
  | .file 0 _ => ⟨sessions0, none, none⟩
  | .file (_ + 1) none =>
    let backupPath := withSuffix historyFile (".corrupted." ++ toString env.now ++ ".json")
    if env.renameOk then ⟨[], some backupPath, none⟩
    else ⟨[], none, none⟩
  | .file (_ + 1) (some data) =>
    match jSessions data with
    | none => ⟨[], none, none⟩
    | some sessionJs =>
      match sessionJs.mapM chatSessionFromDict with
      | .ok ss => ⟨ss.foldl sessUpsert sessions0, none, none⟩
      | .error _ => ⟨[], none, none⟩

/-- File-system oracle for one `save_history` run: whether writing the
temp file succeeds and whether the final rename succeeds. -/
structure SaveEnv where
  writeOk : Bool
  renameOk : Bool

/-- What the temp file holds: the complete serialized document, or the
truncated garbage left by a write that raised midway. -/
inductive TempContent where
  | complete (docs : List ChatSession)
  | truncated

/-- The on-disk state `save_history` can affect: the history file itself
(as its parsed session list) and the `.tmp` sibling. -/
structure Disk where
  target : Option (List ChatSession)
  temp : Option TempContent

/-- Stable insertion for `sorted(..., key=lambda s: s.updated_at,
reverse=True)`. -/
def insertByUpdatedDesc (x : ChatSession) : List ChatSession → List ChatSession
  | [] => [x]
  | y :: ys =>
    if decide (y.updated_at < x.updated_at) then x :: y :: ys
    else y :: insertByUpdatedDesc x ys

/-- The trimming step of `save_history` (history.py lines 107-109): when
over the ceiling, keep the `max_sessions` most recently updated sessions. -/
def trimSessions (maxSessions : Nat) (sessions : List (String × ChatSession)) :
    List (String × ChatSession) :=
  if sessions.length > maxSessions then
    let sorted := (sessions.map (·.2)).foldr insertByUpdatedDesc []
    (sorted.take maxSessions).map (fun s => (s.session_id, s))
  else sessions

/-- Outcome of `save_history`: the (possibly trimmed) in-memory sessions,
the resulting disk state, and the exception caught by the
`except Exception` wrapper, if any.  Nothing ever escapes the method. -/
structure SaveOut where
  sessions : List (String × ChatSession)
  disk : Disk
  caught : Option PyExc

/-- `ChatHistoryManager.save_history` (history.py lines 103-119): trim,
serialize, write the document to `<stem>.tmp`, and only then rename the
temp file over the history file.  A failure while writing leaves a
truncated temp file and the target untouched; a failure of the rename
leaves the complete temp file and the target untouched; in both cases
the exception is caught and logged inside the method. -/
def saveHistory (env : SaveEnv) (maxSessions : Nat)
    (sessions : List (String × ChatSession)) (disk : Disk) : SaveOut :=
  let sessions2 := trimSessions maxSessions sessions
  let doc := sessions2.map (·.2)
  if env.writeOk = false then
    ⟨sessions2, { disk with temp := some .truncated }, some (.generic "failed to write temp file")⟩
  else if env.renameOk = false then
    ⟨sessions2, { disk with temp := some (.complete doc) },
      some (.generic "failed to rename temp file")⟩
  else
    ⟨sessions2, { target := some doc, temp := none }, none⟩

/-! ## Helper lemmas -/

theorem strBegins_weaken (s p q : String) (hqp : strBegins p q = true)
    (h : strBegins s p = true) : strBegins s q = true := by
  unfold strBegins at *
  rw [List.isPrefixOf_iff_prefix] at *
  exact hqp.trans h

theorem dictFind_dictInsert (m : List (String × ToolFn)) (k n : String) (v : ToolFn) :
    dictFind (dictInsert m k v) n = if n = k then some v else dictFind m n := by
  induction m with
  | nil =>
    by_cases h : n = k
    · simp [dictInsert, dictFind, List.find?, h]
    · simp [dictInsert, dictFind, List.find?, h, Ne.symm h]
  | cons kv rest ih =>
    by_cases h1 : kv.1 = k
    · by_cases h2 : n = k
      · simp [dictInsert, dictFind, List.find?, h1, h2]
      · have h3 : ¬ (kv.1 = n) := fun hh => h2 ((h1.symm.trans hh).symm)
        simp [dictInsert, dictFind, List.find?, h1, h2, Ne.symm h2, h3]
    · by_cases h3 : kv.1 = n
      · have h2 : ¬ (n = k) := fun hh => h1 (h3.trans hh)
        simp [dictInsert, dictFind, List.find?, h1, h2, h3]
      · by_cases h2 : n = k <;>
          simpa [dictInsert, dictFind, List.find?, h1, h2, h3] using ih
  
theorem dictFind_foldl_dictInsert (funcs : List ToolFn) (m : List (String × ToolFn))
    (n : String) :
    dictFind (funcs.foldl (fun acc f => dictInsert acc f.name f) m) n =
      funcs.foldl (fun acc f => if f.name = n then some f else acc) (dictFind m n) := by
  induction funcs generalizing m with
  | nil => rfl
  | cons f rest ih =>
    simp only [List.foldl]
    rw [ih]
    congr 1
    rw [dictFind_dictInsert]
    by_cases h : n = f.name
    · simp [h]
    · simp [h, Ne.symm h]

/-! ## C4 -/

/-- A response whose first candidate has content, but content without a
`parts` attribute. -/
def rMissingParts : Response := ⟨some [⟨some ⟨none⟩⟩]⟩

/-- C4 counterexample: the claim says the extraction never raises, for
every response shape including "content with missing or empty parts"; but
on a candidate whose content is present while its `parts` attribute is
missing, `_extract_function_calls` dereferences `candidate.content.parts`
unguarded and raises an `AttributeError`. -/
theorem c4_counterexample :
    extractFunctionCalls rMissingParts = .error (.attributeError attrErrPartsMsg) := rfl

/-- C4 (amended): the extraction returns a (possibly empty) list of
tool-call requests without raising exactly on those responses where the
missing-substructure tolerance applies — no `candidates` attribute, empty
candidate list, missing/falsy `content`, or a present (possibly empty)
`parts` list; when the first candidate carries content whose `parts`
attribute is missing, the extraction raises instead. -/
theorem c4_extraction_total_iff_parts_safe :
    ∀ r : Response, exceptOk (extractFunctionCalls r) = partsSafe r := by
  intro r
  match r with
  | ⟨none⟩ => rfl
  | ⟨some []⟩ => rfl
  | ⟨some (⟨none⟩ :: cs)⟩ => rfl
  | ⟨some (⟨some ⟨none⟩⟩ :: cs)⟩ => rfl
  | ⟨some (⟨some ⟨some parts⟩⟩ :: cs)⟩ => rfl

/-! ## C6 -/

/-- The built-in `read_file` bound method (registered first,
bridge.py line 103). -/
def builtinReadFileFn : ToolFn := ⟨"read_file", fun _ => .ok (.str "builtin"), 0⟩

/-- A plugin tool function whose `__name__` is also `read_file`
(appended later by `_setup_tool_functions`; `plugins.py` only rejects
duplicate *plugin* names, never duplicate tool `__name__`s). -/
def pluginReadFileFn : ToolFn := ⟨"read_file", fun _ => .ok (.str "plugin"), 1⟩

/-- C6 counterexample: with a built-in tool (id 0) registered before a
plugin tool of the same `__name__` (id 1), the dispatch map built by
`GeodeBridge.__init__` resolves the name to the *later* callable — the
dict comprehension silently overwrites, so the first registrant does not
win and nothing is rejected. -/
theorem c6_counterexample :
    (dictFind (buildToolFunctionMap [builtinReadFileFn, pluginReadFileFn])
        "read_file").map ToolFn.id = some 1 ∧
      ¬ ((dictFind (buildToolFunctionMap [builtinReadFileFn, pluginReadFileFn])
        "read_file").map ToolFn.id = some 0) := by
  exact ⟨rfl, by decide⟩

/-- C6 (amended): name uniqueness is enforced only at the plugin level —
`PluginManager._register_plugin` rejects (and logs) a plugin whose
declared name is already registered, leaving the registry unchanged; but
tool `__name__`s are not deduplicated across built-in, plugin and MCP
sources, and the dispatch map `{func.__name__: func for func in
self.tool_functions}` binds every name to the **last** function of that
name in registration order, silently overwriting earlier registrants. -/
theorem c6_plugin_first_wins_dispatch_last_wins :
    (∀ (st : PMState) (p : Plugin),
      (st.plugins.map (·.1)).contains p.name = true → registerPlugin st p = (st, "")) ∧
    (∀ (funcs : List ToolFn) (n : String),
      dictFind (buildToolFunctionMap funcs) n = lastWithName funcs n) := by
  constructor
  · intro st p h
    simp only [registerPlugin, h]
    rfl
  · intro funcs n
    simpa [buildToolFunctionMap, lastWithName, dictFind] using
      dictFind_foldl_dictInsert funcs [] n

/-- A registry state already holding a plugin named `alpha`. -/
def alphaPlugin : Plugin := ⟨"alpha", [⟨"alpha_tool", fun _ => .ok .pynone, 2⟩]⟩

def pmStateOne : PMState := ⟨[("alpha", alphaPlugin)], alphaPlugin.tools⟩

/-- C6 witness: the amended theorem applied at a concrete duplicate
registration and a concrete colliding tool list. -/
theorem c6_plugin_first_wins_dispatch_last_wins_witness :
    registerPlugin pmStateOne alphaPlugin = (pmStateOne, "") ∧
      dictFind (buildToolFunctionMap [builtinReadFileFn, pluginReadFileFn]) "read_file" =
        lastWithName [builtinReadFileFn, pluginReadFileFn] "read_file" :=
  ⟨c6_plugin_first_wins_dispatch_last_wins.1 pmStateOne alphaPlugin (by decide),
   c6_plugin_first_wins_dispatch_last_wins.2 [builtinReadFileFn, pluginReadFileFn] "read_file"⟩

/-! ## C7 -/

/-- A vault whose every request fails with the same exception. -/
def failingApi (e : PyExc) : ApiOracle := fun _ _ _ => .error e

theorem errUnexpected_begins : strBegins errUnexpected "ERROR:" = true := by decide

theorem listFiles_err_begins (e : PyExc) (d : String) :
    strBegins (listFiles (failingApi e) d) "ERROR:" = true := by
  cases e with
  | obsidianConnectionError m =>
    show strBegins ("ERROR: Could not list files in " ++ squo ++ d ++ squo ++
      ". Reason: " ++ m) "ERROR:" = true
    repeat apply strBegins_of_front
    decide
  | obsidianAuthError m =>
    show strBegins ("ERROR: Could not list files in " ++ squo ++ d ++ squo ++
      ". Reason: " ++ m) "ERROR:" = true
    repeat apply strBegins_of_front
    decide
  | obsidianAPIError m st =>
    show strBegins ("ERROR: Could not list files in " ++ squo ++ d ++ squo ++
      ". Reason: " ++ m) "ERROR:" = true
    repeat apply strBegins_of_front
    decide
  | obsidianError m =>
    show strBegins ("ERROR: Could not list files in " ++ squo ++ d ++ squo ++
      ". Reason: " ++ m) "ERROR:" = true
    repeat apply strBegins_of_front
    decide
  | geminiAuthError m => exact errUnexpected_begins
  | geminiAPIError m => exact errUnexpected_begins
  | nameError m => exact errUnexpected_begins
  | attributeError m => exact errUnexpected_begins
  | generic m => exact errUnexpected_begins

theorem readFile_err_begins (e : PyExc) (p : String) :
    strBegins (readFile (failingApi e) p) "ERROR:" = true := by
  cases e with
  | obsidianAPIError m st =>
    show strBegins (if st = some 404 then
        "ERROR: The file " ++ squo ++ p ++ squo ++ " was not found in the vault."
      else "ERROR: Could not read file. Reason: " ++ m) "ERROR:" = true
    by_cases h : st = some 404
    · simp only [h, if_pos]
      repeat apply strBegins_of_front
      decide
    · simp only [h, if_neg, ite_false]
      repeat apply strBegins_of_front
      decide
  | obsidianConnectionError m => exact errUnexpected_begins
  | obsidianAuthError m => exact errUnexpected_begins
  | obsidianError m => exact errUnexpected_begins
  | geminiAuthError m => exact errUnexpected_begins
  | geminiAPIError m => exact errUnexpected_begins
  | nameError m => exact errUnexpected_begins
  | attributeError m => exact errUnexpected_begins
  | generic m => exact errUnexpected_begins

theorem createOrUpdateFile_err_begins (e : PyExc) (p c : String) :
    strBegins (createOrUpdateFile (failingApi e) p c) "ERROR:" = true := by
  cases e with
  | obsidianConnectionError m =>
    show strBegins ("ERROR: Could not write to file. Reason: " ++ m) "ERROR:" = true
    repeat apply strBegins_of_front
    decide
  | obsidianAuthError m =>
    show strBegins ("ERROR: Could not write to file. Reason: " ++ m) "ERROR:" = true
    repeat apply strBegins_of_front
    decide
  | obsidianAPIError m st =>
    show strBegins ("ERROR: Could not write to file. Reason: " ++ m) "ERROR:" = true
    repeat apply strBegins_of_front
    decide
  | obsidianError m =>
    show strBegins ("ERROR: Could not write to file. Reason: " ++ m) "ERROR:" = true
    repeat apply strBegins_of_front
    decide
  | geminiAuthError m => exact errUnexpected_begins
  | geminiAPIError m => exact errUnexpected_begins
  | nameError m => exact errUnexpected_begins
  | attributeError m => exact errUnexpected_begins
  | generic m => exact errUnexpected_begins

theorem fetchDirectory_err (e : PyExc) (fuel : Nat) (path : String) :
    fetchDirectory (failingApi e) fuel path = [] := by
  cases fuel with
  | zero => rfl
  | succ n =>
    have h : strBegins (listFiles (failingApi e) path) "ERROR" = true :=
      strBegins_weaken _ _ _ (by decide) (listFiles_err_begins e path)
    simp [fetchDirectory, h]

theorem listAllFiles_err (e : PyExc) (fuel : Nat) :
    listAllFiles (failingApi e) fuel =
      "ERROR: No files or folders found in the vault, or the vault root could not be read." := by
  simp [listAllFiles, fetchDirectory_err]

/-- The 500-error vault used by the counterexample. -/
def api500 : ApiOracle :=
  fun _ _ _ => .error (.obsidianAPIError "HTTP Error 500: internal error" (some 500))

/-- C7 counterexample: the claim says every built-in vault tool returns a
string beginning `"ERROR:"` for every `VaultClient` error class; but
`delete_file` answering an `ObsidianAPIError` with a non-404 status
returns a string beginning `"API Error:"`. -/
theorem c7_counterexample :
    strBegins (deleteFile api500 "notes/a.md") "ERROR:" = false ∧
      strBegins (deleteFile api500 "notes/a.md") "API Error:" = true := by
  exact ⟨by decide, by decide⟩

/-- C7 (amended): every built-in vault tool converts every raised
`VaultClient` error class (and any other exception) into a returned
human-readable string instead of raising; the string begins `"ERROR:"`
in every branch except `delete_file`'s non-404 `ObsidianAPIError` branch,
which begins `"API Error:"`; and deleting a path for which the vault
returns HTTP 404 yields the not-found string. -/
theorem c7_error_strings :
    ∀ (e : PyExc) (d p c m : String) (fuel : Nat),
      strBegins (listFiles (failingApi e) d) "ERROR:" = true ∧
      strBegins (readFile (failingApi e) p) "ERROR:" = true ∧
      strBegins (createOrUpdateFile (failingApi e) p c) "ERROR:" = true ∧
      strBegins (listAllFiles (failingApi e) fuel) "ERROR:" = true ∧
      (strBegins (deleteFile (failingApi e) p) "ERROR:" = true ∨
        strBegins (deleteFile (failingApi e) p) "API Error:" = true) ∧
      deleteFile (failingApi (.obsidianAPIError m (some 404))) p =
        "ERROR: Could not delete the file " ++ squo ++ p ++ squo ++
          " because it was not found." := by
  intro e d p c m fuel
  refine ⟨listFiles_err_begins e d, readFile_err_begins e p,
    createOrUpdateFile_err_begins e p c, ?_, ?_, ?_⟩
  · rw [listAllFiles_err]
    decide
  · cases e with
    | obsidianAPIError m2 st =>
      by_cases h : st = some 404
      · refine Or.inl ?_
        show strBegins (if st = some 404 then
            "ERROR: Could not delete the file " ++ squo ++ p ++ squo ++
              " because it was not found."
          else "API Error: Could not delete file. Reason: " ++ m2) "ERROR:" = true
        simp only [h, if_pos]
        repeat apply strBegins_of_front
        decide
      · refine Or.inr ?_
        show strBegins (if st = some 404 then
            "ERROR: Could not delete the file " ++ squo ++ p ++ squo ++
              " because it was not found."
          else "API Error: Could not delete file. Reason: " ++ m2) "API Error:" = true
        simp only [h, if_neg, ite_false]
        repeat apply strBegins_of_front
        decide
    | obsidianConnectionError m2 => exact Or.inl errUnexpected_begins
    | obsidianAuthError m2 => exact Or.inl errUnexpected_begins
    | obsidianError m2 => exact Or.inl errUnexpected_begins
    | geminiAuthError m2 => exact Or.inl errUnexpected_begins
    | geminiAPIError m2 => exact Or.inl errUnexpected_begins
    | nameError m2 => exact Or.inl errUnexpected_begins
    | attributeError m2 => exact Or.inl errUnexpected_begins
    | generic m2 => exact Or.inl errUnexpected_begins
  · show (if (some 404 : Option Nat) = some 404 then
        "ERROR: Could not delete the file " ++ squo ++ p ++ squo ++
          " because it was not found."
      else "API Error: Could not delete file. Reason: " ++ m) = _
    rw [if_pos rfl]

/-! ## C2 -/

theorem processToolCallsAux_sends_le (sig : Signals)
    (execute : FunctionCall → List Event × Except PyExc FunctionResponse)
    (send : List FunctionResponse → Except PyExc Response) :
    ∀ (fuel iteration : Nat) (r : Response),
      (processToolCallsAux sig execute send fuel iteration r).sends ≤ fuel := by
  intro fuel
  induction fuel with
  | zero => intro it r; simp [processToolCallsAux]
  | succ n ih =>
    intro it r
    simp only [processToolCallsAux]
    split
    · simp
    · simp
    · split
      · simp
      · split
        · split
          · simp
          · simpa using Nat.le_succ_of_le (ih (it + 1) r)
        · split
          · simp
          · split
            · simp
            · have := ih (it + 1) (by assumption)
              simp only [LoopOut.sends] at this ⊢
              omega

/-- The responses from which `_extract_function_calls` returns at least
one tool-call request. -/
def hasCalls (r : Response) : Prop :=
  ∃ calls, extractFunctionCalls r = .ok calls ∧ calls ≠ []

theorem execCalls_ok
    (execute : FunctionCall → List Event × Except PyExc FunctionResponse)
    (hexec : ∀ fc, ∃ evs fr, execute fc = (evs, .ok fr)) :
    ∀ calls : List FunctionCall, ∃ evs frs,
      execCalls execute calls = (evs, .ok frs) ∧ frs.length = calls.length := by
  intro calls
  induction calls with
  | nil => exact ⟨[], [], rfl, rfl⟩
  | cons fc rest ih =>
    obtain ⟨evs, fr, hfc⟩ := hexec fc
    obtain ⟨evs2, frs, hrest, hlen⟩ := ih
    exact ⟨evs ++ evs2, fr :: frs, by simp [execCalls, hfc, hrest], by simp [hlen]⟩

theorem processToolCallsAux_ceiling (sig : Signals)
    (execute : FunctionCall → List Event × Except PyExc FunctionResponse)
    (send : List FunctionResponse → Except PyExc Response)
    (hexec : ∀ fc, ∃ evs fr, execute fc = (evs, .ok fr))
    (hsend : ∀ frs, ∃ r2, send frs = .ok r2 ∧ hasCalls r2) :
    ∀ (fuel iteration : Nat) (r : Response), 1 ≤ fuel →
      iteration + fuel = maxIterations → hasCalls r →
      Event.errorEv toolLoopExceededMsg ∈
        (processToolCallsAux sig execute send fuel iteration r).events := by
  intro fuel
  induction fuel with
  | zero => intro it r h; omega
  | succ n ih =>
    intro it r _ hsum hr
    obtain ⟨calls, hcalls, hne⟩ := hr
    obtain ⟨evs1, frs, hexecall, hlen⟩ := execCalls_ok execute hexec calls
    obtain ⟨r2, hsend2, hr2⟩ := hsend frs
    match calls, hne with
    | fc :: rest, _ =>
      have hfrs : ∃ fr frs2, frs = fr :: frs2 := by
        cases frs with
        | nil => simp at hlen
        | cons fr frs2 => exact ⟨fr, frs2, rfl⟩
      obtain ⟨fr, frs2, rfl⟩ := hfrs
      by_cases hit : it = maxIterations - 1
      · simp only [processToolCallsAux, hcalls, hexecall, hsend2, hit, if_pos]
        simp
      · have hn : 1 ≤ n := by
          simp only [maxIterations] at hsum hit ⊢
          omega
        have hrec := ih (it + 1) r2 hn (by omega) hr2
        simp only [processToolCallsAux, hcalls, hexecall, hsend2, hit, if_neg,
          ite_false]
        simp only [List.mem_append]
        exact Or.inr hrec

/-- C2: for every signal sink, every tool-executor outcome and every
resubmission outcome, `_process_tool_calls` performs at most
`max_iterations = 10` resubmission rounds; and whenever the model keeps
returning at least one tool-call request per round while executions and
resubmissions keep succeeding, the round that reaches the ceiling emits
the distinct `"Tool-use loop exceeded maximum iterations"` error event
and stops. -/
theorem c2_iteration_ceiling (sig : Signals)
    (execute : FunctionCall → List Event × Except PyExc FunctionResponse)
    (send : List FunctionResponse → Except PyExc Response) (r : Response) :
    (processToolCalls sig execute send r).sends ≤ maxIterations ∧
    ((∀ fc, ∃ evs fr, execute fc = (evs, .ok fr)) →
      (∀ frs, ∃ r2, send frs = .ok r2 ∧ hasCalls r2) →
      hasCalls r →
      Event.errorEv toolLoopExceededMsg ∈
        (processToolCalls sig execute send r).events) :=
  ⟨processToolCallsAux_sends_le sig execute send maxIterations 0 r,
   fun hexec hsend hr =>
     processToolCallsAux_ceiling sig execute send hexec hsend maxIterations 0 r
       (by decide) (by decide) hr⟩

/-- A model that always answers with the same single tool-call request,
an executor that always succeeds, and a resubmission that always
succeeds: the sustained tool-use scenario of C2. -/
def fcW : FunctionCall := ⟨"noop", []⟩

def respW : Response := ⟨some [⟨some ⟨some [⟨some fcW, none⟩]⟩⟩]⟩

def executeW : FunctionCall → List Event × Except PyExc FunctionResponse :=
  fun fc => ([Event.toolCall fc.name], .ok ⟨fc.name, .pynone⟩)

def sendW : List FunctionResponse → Except PyExc Response := fun _ => .ok respW

/-- C2 witness: the theorem applied to the sustained tool-use scenario. -/
theorem c2_iteration_ceiling_witness :
    (processToolCalls sigOk executeW sendW respW).sends ≤ maxIterations ∧
      Event.errorEv toolLoopExceededMsg ∈
        (processToolCalls sigOk executeW sendW respW).events :=
  ⟨(c2_iteration_ceiling sigOk executeW sendW respW).1,
   (c2_iteration_ceiling sigOk executeW sendW respW).2
     (fun fc => ⟨[Event.toolCall fc.name], ⟨fc.name, .pynone⟩, rfl⟩)
     (fun _ => ⟨respW, rfl, ⟨[fcW], rfl, by simp⟩⟩)
     ⟨[fcW], rfl, by simp⟩⟩

/-! ## C1 -/

/-- The built-in `read_file` callable under its dispatch name, succeeding
with file contents. -/
def readFileToolFn : ToolFn := ⟨"read_file", fun _ => .ok (.str "file contents"), 0⟩

/-- The built-in `delete_file` callable, also succeeding. -/
def deleteFileToolFn : ToolFn := ⟨"delete_file", fun _ => .ok (.str "deleted"), 1⟩

def toolMapC1 : List (String × ToolFn) :=
  buildToolFunctionMap [readFileToolFn, deleteFileToolFn]

def fcRead : FunctionCall := ⟨"read_file", [("file_path", "a.md")]⟩

def fcDelete : FunctionCall := ⟨"delete_file", [("file_path", "b.md")]⟩

/-- A model response requesting two tool calls in one round. -/
def respC1 : Response :=
  ⟨some [⟨some ⟨some [⟨some fcRead, none⟩, ⟨some fcDelete, none⟩]⟩⟩]⟩

/-- C1: evaluation of the code at the failing input.  A round with two
tool-call requests whose callables are registered and succeed: the first
`_execute_function_call` emits its `tool_call` event, runs the callable —
and then raises `NameError: name 'types' is not defined` at the
`types.FunctionResponse(...)` constructor (`types` is never imported in
bridge.py), so the round aborts with a `"Tool execution failed"` error
event, the second requested callable is never executed, and zero results
are resubmitted — the successful round the claim describes is
unreachable. -/
theorem c1_name_error_aborts_round :
    executeFunctionCall toolMapC1 sigOk fcRead =
      ([Event.toolCall ("read_file(file_path=" ++ squo ++ "a.md" ++ squo ++ ")")],
        .error (.nameError nameErrorTypesMsg)) ∧
    (processToolCalls sigOk (executeFunctionCall toolMapC1 sigOk)
        (fun _ => .ok respC1) respC1).sends = 0 ∧
    (processToolCalls sigOk (executeFunctionCall toolMapC1 sigOk)
        (fun _ => .ok respC1) respC1).events =
      [Event.toolCall ("read_file(file_path=" ++ squo ++ "a.md" ++ squo ++ ")"),
       Event.errorEv ("Tool execution failed: " ++ nameErrorTypesMsg)] :=
  ⟨rfl, rfl, rfl⟩

/-! ## C3 -/

def fcWrite : FunctionCall := ⟨"write_note", [("path", "a.md")]⟩

/-- The initial model response: one tool-call request plus the interim
text `"Working on it"`. -/
def respWorking : Response :=
  ⟨some [⟨some ⟨some [⟨some fcWrite, none⟩, ⟨none, some "Working on it"⟩]⟩⟩]⟩

/-- The response produced by the resubmission: no tool calls, final text
`"Done"`. -/
def respDone : Response := ⟨some [⟨some ⟨some [⟨none, some "Done"⟩]⟩⟩]⟩

/-- A tool executor that completes normally, standing for
`_execute_function_call` as its own docstring intends (its actual body
can never return — see C1 — which masks the defect exhibited here). -/
def executeOkC3 : FunctionCall → List Event × Except PyExc FunctionResponse :=
  fun fc => ([Event.toolCall fc.name], .ok ⟨fc.name, .str "ok"⟩)

/-- C3: evaluation of the code at the failing input.  The round
resubmits and the loop then exits because `respDone` carries zero
tool-call requests; the claim says the final message event carries the
concatenated text of that final response (`"Done"`).  But
`_process_tool_calls` only rebinds its own local `response` (bridge.py
line 222) and returns `None`, so `send_message` line 179 extracts the
text of the *initial* response: the emitted message is
`"Working on it"`, and no event carries `"Done"`. -/
theorem c3_stale_final_text :
    (sendMessage sigOk (fun _ => .ok respWorking) executeOkC3
        (fun _ => .ok respDone) "prompt").events =
      [Event.toolCall "write_note", Event.message "Geode" "Working on it",
        Event.finished] ∧
    Event.message "Geode" "Done" ∉
      (sendMessage sigOk (fun _ => .ok respWorking) executeOkC3
        (fun _ => .ok respDone) "prompt").events :=
  ⟨rfl, by decide⟩

/-! ## C5 -/

/-- A provider environment where the vendor library imports, the client
constructs with the configured credential, and session creation would
succeed. -/
def envOkC5 : ProviderEnv := ⟨true, true, true, ""⟩

/-- The `ClaudeClient` attribute state after a successful `initialize`:
client and tool list set, `messages` never assigned. -/
def claudeInitState : ClaudeState := ⟨true, some ["list_files"], none⟩

def claudeNetOk : List (String × String) → Except PyExc String :=
  fun _ => .ok "Hello back"

/-- C5: evaluation of the code at the failing input.  With the library
available and the credential accepted, `ClaudeClient.initialize` returns
successfully — but, contrary to the claim (and to
`GeminiClient.initialize`, which does call `create_chat_session` and
leaves a usable chat handle), it never calls `create_chat_session`, so
`self.messages` does not exist and the very first
`ClaudeClient.send_message` raises an `AttributeError` instead of being
servable without further setup. -/
theorem c5_claude_init_creates_no_session :
    claudeInit envOkC5 ["list_files"] = .ok claudeInitState ∧
    claudeSendMessage claudeInitState claudeNetOk "Hello" =
      .error (.attributeError claudeNoMessagesMsg) ∧
    geminiInit envOkC5 "gemini-2.5-pro" = .ok ⟨true, some ()⟩ ∧
    claudeSendMessage (claudeCreateChatSession claudeInitState ["list_files"])
        claudeNetOk "Hello" =
      .ok (⟨true, some ["list_files"],
        some [("user", "Hello"), ("assistant", "Hello back")]⟩, "Hello back") :=
  ⟨rfl, rfl, rfl, rfl⟩

/-! ## C8 -/

theorem executeFunctionCall_finished_free (toolMap : List (String × ToolFn))
    (sig : Signals) (fc : FunctionCall) :
    Event.finished ∉ (executeFunctionCall toolMap sig fc).1 := by
  simp only [executeFunctionCall]
  repeat' split
  all_goals simp

theorem execCalls_finished_free
    (execute : FunctionCall → List Event × Except PyExc FunctionResponse)
    (hex : ∀ fc, Event.finished ∉ (execute fc).1) :
    ∀ calls, Event.finished ∉ (execCalls execute calls).1 := by
  intro calls
  induction calls with
  | nil => simp [execCalls]
  | cons fc rest ih =>
    have hfc := hex fc
    simp only [execCalls]
    split
    · rename_i evs e heq
      rw [heq] at hfc
      exact hfc
    · rename_i evs fr heq
      rw [heq] at hfc
      split
      · rename_i evs2 e2 heq2
        rw [heq2] at ih
        simp only [List.mem_append]
        rintro (h | h)
        · exact hfc h
        · exact ih h
      · rename_i evs2 frs2 heq2
        rw [heq2] at ih
        simp only [List.mem_append]
        rintro (h | h)
        · exact hfc h
        · exact ih h

theorem processToolCallsAux_finished_free (sig : Signals)
    (execute : FunctionCall → List Event × Except PyExc FunctionResponse)
    (send : List FunctionResponse → Except PyExc Response)
    (hex : ∀ fc, Event.finished ∉ (execute fc).1) :
    ∀ (fuel it : Nat) (r : Response),
      Event.finished ∉ (processToolCallsAux sig execute send fuel it r).events := by
  intro fuel
  induction fuel with
  | zero => intro it r; simp [processToolCallsAux]
  | succ n ih =>
    intro it r
    simp only [processToolCallsAux]
    split
    · simp
    · simp
    · rename_i calls fc rest heqx
      split
      · rename_i evs e heq
        have hfree := execCalls_finished_free execute hex (fc :: rest)
        rw [heq] at hfree
        simp only [List.mem_append, List.mem_singleton]
        rintro (h | h)
        · exact hfree h
        · exact Event.noConfusion h
      · rename_i evs frs heq
        have hfree := execCalls_finished_free execute hex (fc :: rest)
        rw [heq] at hfree
        split
        · split
          · simp only [List.mem_append, List.mem_singleton]
            rintro (h | h)
            · exact hfree h
            · exact Event.noConfusion h
          · simp only [List.mem_append]
            rintro (h | h)
            · exact hfree h
            · exact ih (it + 1) r h
        · split
          · simp only [List.mem_append, List.mem_singleton]
            rintro (h | h)
            · exact hfree h
            · exact Event.noConfusion h
          · split
            · simp only [List.mem_append, List.mem_singleton]
              rintro (h | h)
              · exact hfree h
              · exact Event.noConfusion h
            · rename_i newResponse heqs hcond
              simp only [List.mem_append]
              rintro (h | h)
              · exact hfree h
              · exact ih (it + 1) newResponse h

theorem sendMessageBody_finished_free (sig : Signals)
    (sendPrompt : String → Except PyExc Response)
    (execute : FunctionCall → List Event × Except PyExc FunctionResponse)
    (send : List FunctionResponse → Except PyExc Response) (prompt : String)
    (hex : ∀ fc, Event.finished ∉ (execute fc).1) :
    Event.finished ∉ (sendMessageBody sig sendPrompt execute send prompt).1 := by
  have hloop := fun r => processToolCallsAux_finished_free sig execute send hex
    maxIterations 0 r
  simp only [sendMessageBody, emitHandler]
  split
  · simp
  · rename_i response heq
    split
    · simp only [List.mem_append, List.mem_singleton]
      rintro (h | h)
      · exact hloop response h
      · exact Event.noConfusion h
    · split
      · simp only [List.mem_append, List.mem_singleton]
        rintro (h | h)
        · exact hloop response h
        · exact Event.noConfusion h
      · split
        · split
          · simp only [List.mem_append, List.mem_singleton]
            rintro ((h | h) | h)
            · exact hloop response h
            · exact Event.noConfusion h
            · exact Event.noConfusion h
          · simp only [List.mem_append, List.mem_singleton]
            rintro (h | h)
            · exact hloop response h
            · exact Event.noConfusion h
        · split
          · simp only [List.mem_append, List.mem_singleton]
            rintro ((h | h) | h)
            · exact hloop response h
            · exact Event.noConfusion h
            · exact Event.noConfusion h
          · simp only [List.mem_append, List.mem_singleton]
            rintro (h | h)
            · exact hloop response h
            · exact Event.noConfusion h

theorem emitHandler_escape (sig : Signals) (e : PyExc) :
    (emitHandler sig e).2 = none ∨ ∃ m, sig.fails (Event.errorEv m) = true := by
  by_cases h : sig.fails (Event.errorEv (formatErrorMessage e))
  · exact Or.inr ⟨formatErrorMessage e, h⟩
  · exact Or.inl (by simp [emitHandler, h])

theorem sendMessageBody_escape (sig : Signals)
    (sendPrompt : String → Except PyExc Response)
    (execute : FunctionCall → List Event × Except PyExc FunctionResponse)
    (send : List FunctionResponse → Except PyExc Response) (prompt : String) :
    (sendMessageBody sig sendPrompt execute send prompt).2 = none ∨
      ∃ m, sig.fails (Event.errorEv m) = true := by
  simp only [sendMessageBody]
  split
  · exact emitHandler_escape sig _
  · split
    · exact emitHandler_escape sig _
    · split
      · exact emitHandler_escape sig _
      · split
        · split
          · exact emitHandler_escape sig emitExc
          · exact Or.inl rfl
        · split
          · exact emitHandler_escape sig emitExc
          · exact Or.inl rfl

/-- A signal sink whose `error` emissions raise (an exception-throwing
error slot) while all other emissions succeed. -/
def sigFailsError : Signals :=
  ⟨fun e => match e with | .errorEv _ => true | _ => false⟩

/-- C8 counterexample: the claim says an exception raised while emitting a
notification event is caught and never propagated to the caller of
`send_message`.  But when the provider call fails and the `error.emit`
inside the `except Exception` handler itself raises, only the `finally`
block's `finished` emission is guarded (bridge.py lines 186-190): the
emit exception escapes `send_message` to its caller — after the finished
emission was attempted. -/
theorem c8_counterexample :
    (bridgeSendMessage [] sigFailsError (fun _ => .error (.generic "boom"))
        (fun _ => .ok ⟨none⟩) "hi").escaped = some emitExc ∧
    (bridgeSendMessage [] sigFailsError (fun _ => .error (.generic "boom"))
        (fun _ => .ok ⟨none⟩) "hi").events =
      [Event.errorEv "An unexpected error occurred: boom", Event.finished] :=
  ⟨rfl, rfl⟩

/-- C8 (amended): on every execution path of `send_message` — normal
completion, provider failure, tool-execution failure, unknown tool name —
exactly one terminal `finished` emission is attempted, as the last event;
exceptions raised while emitting the final message or the `finished`
event are caught; but an exception raised while emitting the *error*
event inside the `except` handler is the one emission failure that
propagates to the caller (after the `finished` attempt), so anything that
escapes can only stem from a raising `error.emit`. -/
theorem c8_finished_always_error_emit_escapes (toolMap : List (String × ToolFn))
    (sig : Signals) (sendPrompt : String → Except PyExc Response)
    (send : List FunctionResponse → Except PyExc Response) (prompt : String) :
    (bridgeSendMessage toolMap sig sendPrompt send prompt).events.getLast? =
      some Event.finished ∧
    (bridgeSendMessage toolMap sig sendPrompt send prompt).events.count
      Event.finished = 1 ∧
    ((bridgeSendMessage toolMap sig sendPrompt send prompt).escaped = none ∨
      ∃ m, sig.fails (Event.errorEv m) = true) := by
  have hex := executeFunctionCall_finished_free toolMap sig
  have hfree := sendMessageBody_finished_free sig sendPrompt
    (executeFunctionCall toolMap sig) send prompt hex
  refine ⟨?_, ?_, ?_⟩
  · show (_ ++ [Event.finished]).getLast? = some Event.finished
    exact List.getLast?_concat _
  · show (_ ++ [Event.finished]).count Event.finished = 1
    rw [List.count_append]
    rw [List.count_eq_zero.mpr hfree]
    rfl
  · exact sendMessageBody_escape sig sendPrompt
      (executeFunctionCall toolMap sig) send prompt

/-! ## C9 -/

/-- C9: if the persisted history file exists, is non-empty and fails to
parse as JSON, `load_history` renames the original aside to
`<stem>.corrupted.<int(time.time())>.json` (provided the OS permits the
rename), leaves the in-memory session set empty, and returns without
raising. -/
theorem c9_corrupt_history_backed_up (env : LoadEnv) (historyFile : String)
    (size : Nat) (sessions0 : List (String × ChatSession))
    (hrename : env.renameOk = true) :
    loadHistory env historyFile (.file (size + 1) none) sessions0 =
      ⟨[], some (withSuffix historyFile
        (".corrupted." ++ toString env.now ++ ".json")), none⟩ := by
  simp [loadHistory, hrename]

/-- C9 witness: a concrete corrupted `chat_history.json` of 42 bytes at
`time.time() = 1700000000`. -/
theorem c9_corrupt_history_backed_up_witness :
    loadHistory ⟨true, 1700000000⟩ "chat_history.json" (.file 42 none) [] =
      ⟨[], some (withSuffix "chat_history.json"
        (".corrupted." ++ toString (1700000000 : Nat) ++ ".json")), none⟩ :=
  c9_corrupt_history_backed_up ⟨true, 1700000000⟩ "chat_history.json" 41 [] rfl

/-! ## C10 -/

/-- C10: `save_history` catches every exception internally (the `caught`
field records what the `except Exception` wrapper logged — it is `none`
exactly when writing and renaming both succeed), and because the new
document is written to the `.tmp` sibling and renamed over the target
only as the final step, the previously persisted history file is bitwise
unchanged unless the write *and* the rename both succeed, in which case
it holds exactly the complete freshly-serialized (trimmed) document —
never a partial one. -/
theorem c10_save_never_raises_atomic (env : SaveEnv) (maxSessions : Nat)
    (sessions : List (String × ChatSession)) (disk : Disk) :
    (saveHistory env maxSessions sessions disk).disk.target =
      (if env.writeOk && env.renameOk then
        some ((trimSessions maxSessions sessions).map (·.2))
      else disk.target) ∧
    ((saveHistory env maxSessions sessions disk).caught = none ↔
      (env.writeOk && env.renameOk) = true) ∧
    (saveHistory env maxSessions sessions disk).sessions =
      trimSessions maxSessions sessions := by
  cases env with
  | mk w r => cases w <;> cases r <;> simp [saveHistory]
